import Mathlib

/-
Verification of the Snap-Assisted Interactive Drawing Engine:
a shallow embedding of the snap resolver (frontend/src/services/SnapService.ts),
the coordinate adapter (frontend/src/components/Viewport.tsx) and the drawing
state machine of the application store (startDrawing / completeDrawing /
setSnapSettings) together with the DrawingService session types.

Modelling conventions:
* JavaScript numbers are modelled as exact rationals (ℚ).
* `THREE.Vector3.distanceTo` computes the Euclidean distance, a square root.
  All uses of distances in the source are order comparisons
  (`distance <= threshold`, sorting by distance), and squaring is a monotone
  bijection on nonnegative reals, so the embedding stores the *squared*
  distance in the field `dist2` and translates every comparison accordingly:
  `sqrt d2 <= threshold`  ⟺  `0 ≤ threshold ∧ d2 ≤ threshold ^ 2`, and
  `sqrt d2 < sqrt e2` ⟺ `d2 < e2`.  Ties in the sort are exactly ties of
  the squared distances.
* `Array.prototype.sort` is stable (ECMAScript 2019+), so
  `validSnaps.sort((a, b) => a.distance - b.distance)[0]` is the *first*
  element of the list attaining the minimal distance; `selectBest` below
  computes precisely that element.
* Fallible external calls (node / frame creation) are modelled by an
  explicit success flag per endpoint (`ApiBehavior`) and a backend id
  counter (`Backend`); the `try/catch` of `completeDrawing` becomes early
  returns that keep the partially-updated store, as the source does.
-/

namespace NifesStrucs

/-- Render-space vector, embedding `THREE.Vector3` (x right, y up, z back). -/
structure Vec3 where
  x : ℚ
  y : ℚ
  z : ℚ
deriving DecidableEq

/-- Squared Euclidean distance; the source's `cursor.distanceTo(p)` is its
square root. -/
def dist2 (a b : Vec3) : ℚ :=
  (a.x - b.x) ^ 2 + (a.y - b.y) ^ 2 + (a.z - b.z) ^ 2

/-- JavaScript `Math.round`: halves round toward positive infinity, so
`Math.round x = ⌊x + 1/2⌋`. -/
def jround (q : ℚ) : ℤ := ⌊q + 1 / 2⌋

/-- The `SnapType` union of SnapService.ts. -/
inductive SnapType where
  | endpoint
  | midpoint
  | node
  | grid
  | perpendicular
  | intersection
deriving DecidableEq

/-- The `SnapResult` interface; `dist2` stores the square of the source's
`distance` field (see the file header). -/
structure SnapResult where
  type : SnapType
  position : Vec3
  elementId : Option ℤ
  dist2 : ℚ
deriving DecidableEq

/-- The `Record<SnapType, boolean>` of enabled snap types. -/
structure ActiveSnaps where
  endpoint : Bool
  midpoint : Bool
  node : Bool
  grid : Bool
  perpendicular : Bool
  intersection : Bool
deriving DecidableEq

/-- The `SnapSettings` interface. -/
structure SnapSettings where
  enabled : Bool
  activeSnaps : ActiveSnaps
  threshold : ℚ
  gridSpacing : ℚ
deriving DecidableEq

/-- `DEFAULT_SNAP_SETTINGS` of SnapService.ts. -/
def DEFAULT_SNAP_SETTINGS : SnapSettings :=
  { enabled := true
    activeSnaps :=
      { endpoint := true
        midpoint := true
        node := true
        grid := true
        perpendicular := false
        intersection := false }
    threshold := 1 / 2
    gridSpacing := 1 }

/-- A `Partial<SnapSettings>`: each field either absent or present. -/
structure PartialSnapSettings where
  enabled : Option Bool
  activeSnaps : Option ActiveSnaps
  threshold : Option ℚ
  gridSpacing : Option ℚ

/-- `SnapService.updateSettings`: the spread `{ ...this.settings, ...settings }`
replaces exactly the fields present in the partial update. -/
def updateSettings (s : SnapSettings) (p : PartialSnapSettings) : SnapSettings :=
  { enabled := p.enabled.getD s.enabled
    activeSnaps := p.activeSnaps.getD s.activeSnaps
    threshold := p.threshold.getD s.threshold
    gridSpacing := p.gridSpacing.getD s.gridSpacing }

/-- The `NodeData` interface (snapshot entry for snap detection). -/
structure NodeData where
  id : ℤ
  position : Vec3

/-- The `FrameData` interface (snapshot entry for snap detection). -/
structure FrameData where
  id : ℤ
  startPos : Vec3
  endPos : Vec3

/-- The working snapshot held by a `SnapService` instance (`this.nodes`,
`this.frames`). -/
structure SnapModel where
  nodes : List NodeData
  frames : List FrameData

/-- `findNodeSnaps`: one candidate per known node. -/
def findNodeSnaps (nodes : List NodeData) (cursor : Vec3) : List SnapResult :=
  nodes.map fun n =>
    { type := SnapType.node
      position := n.position
      elementId := some n.id
      dist2 := dist2 cursor n.position }

/-- `findEndpointSnaps`: two candidates per frame. -/
def findEndpointSnaps (frames : List FrameData) (cursor : Vec3) : List SnapResult :=
  frames.flatMap fun f =>
    [{ type := SnapType.endpoint
       position := f.startPos
       elementId := some f.id
       dist2 := dist2 cursor f.startPos },
     { type := SnapType.endpoint
       position := f.endPos
       elementId := some f.id
       dist2 := dist2 cursor f.endPos }]

/-- `findMidpointSnaps`: the arithmetic mean of the two endpoints of each
frame. -/
def findMidpointSnaps (frames : List FrameData) (cursor : Vec3) : List SnapResult :=
  frames.map fun f =>
    let midpoint : Vec3 :=
      { x := (f.startPos.x + f.endPos.x) * (1 / 2)
        y := (f.startPos.y + f.endPos.y) * (1 / 2)
        z := (f.startPos.z + f.endPos.z) * (1 / 2) }
    { type := SnapType.midpoint
      position := midpoint
      elementId := some f.id
      dist2 := dist2 cursor midpoint }

/-- `findGridSnap`: round the two horizontal coordinates to the nearest
multiple of `gridSpacing`, keep the height `y` unchanged. -/
def findGridSnap (st : SnapSettings) (cursor : Vec3) : Option SnapResult :=
  let spacing := st.gridSpacing
  let snapPosition : Vec3 :=
    { x := (jround (cursor.x / spacing) : ℚ) * spacing
      y := cursor.y
      z := (jround (cursor.z / spacing) : ℚ) * spacing }
  some
    { type := SnapType.grid
      position := snapPosition
      elementId := none
      dist2 := dist2 cursor snapPosition }

/-- `findPerpendicularSnaps`: project the cursor on each segment, clamp the
parameter to the segment, and only emit a candidate strictly inside the
central 98% of the segment.  The source works with the unit direction and the
arc-length parameter `t ∈ [0, L]`; the embedding uses the normalised
parameter `t / L ∈ [0, 1]` (dividing the squared length), which rescales
every comparison by the positive factor `L`.  A zero-length frame produces no
candidate in either formulation (in the source the normalised direction and
`t` are NaN and the strict comparisons fail). -/
def findPerpendicularSnaps (frames : List FrameData) (cursor : Vec3) : List SnapResult :=
  frames.flatMap fun f =>
    let dx := f.endPos.x - f.startPos.x
    let dy := f.endPos.y - f.startPos.y
    let dz := f.endPos.z - f.startPos.z
    let len2 := dx ^ 2 + dy ^ 2 + dz ^ 2
    let dot := (cursor.x - f.startPos.x) * dx + (cursor.y - f.startPos.y) * dy
      + (cursor.z - f.startPos.z) * dz
    let t := max 0 (min 1 (dot / len2))
    let closestPoint : Vec3 :=
      { x := f.startPos.x + dx * t
        y := f.startPos.y + dy * t
        z := f.startPos.z + dz * t }
    if 1 / 100 < t ∧ t < 99 / 100 then
      [{ type := SnapType.perpendicular
         position := closestPoint
         elementId := some f.id
         dist2 := dist2 cursor closestPoint }]
    else []

/-- Ordered pairs `(frames[i], frames[j])` with `i < j`, in the order the
source's nested loops visit them. -/
def pairsOf {α : Type} : List α → List (α × α)
  | [] => []
  | a :: rest => (rest.map fun b => (a, b)) ++ pairsOf rest

/-- `findLineIntersection`: 2D segment intersection in the XZ plane; the
height of the accepted point is interpolated along the *first* frame. -/
def findLineIntersection (frame1 frame2 : FrameData) : Option Vec3 :=
  let x1 := frame1.startPos.x
  let z1 := frame1.startPos.z
  let x2 := frame1.endPos.x
  let z2 := frame1.endPos.z
  let x3 := frame2.startPos.x
  let z3 := frame2.startPos.z
  let x4 := frame2.endPos.x
  let z4 := frame2.endPos.z
  let denom := (x1 - x2) * (z3 - z4) - (z1 - z2) * (x3 - x4)
  if |denom| < 1 / 10000 then none
  else
    let t := ((x1 - x3) * (z3 - z4) - (z1 - z3) * (x3 - x4)) / denom
    let u := -((x1 - x2) * (z1 - z3) - (z1 - z2) * (x1 - x3)) / denom
    if 0 ≤ t ∧ t ≤ 1 ∧ 0 ≤ u ∧ u ≤ 1 then
      some
        { x := x1 + t * (x2 - x1)
          y := frame1.startPos.y + t * (frame1.endPos.y - frame1.startPos.y)
          z := z1 + t * (z2 - z1) }
    else none

/-- `findIntersectionSnaps`: one candidate per accepted pairwise
intersection; the source sets no `elementId` for these. -/
def findIntersectionSnaps (frames : List FrameData) (cursor : Vec3) : List SnapResult :=
  (pairsOf frames).flatMap fun fs =>
    match findLineIntersection fs.1 fs.2 with
    | some p =>
        [{ type := SnapType.intersection
           position := p
           elementId := none
           dist2 := dist2 cursor p }]
    | none => []

/-- The candidate list of `findSnapPoint`, in the exact push order of the
source: node, endpoint, midpoint, grid, perpendicular, intersection. -/
def candidatesFor (m : SnapModel) (st : SnapSettings) (cursor : Vec3) : List SnapResult :=
  (if st.activeSnaps.node then findNodeSnaps m.nodes cursor else [])
    ++ (if st.activeSnaps.endpoint then findEndpointSnaps m.frames cursor else [])
    ++ (if st.activeSnaps.midpoint then findMidpointSnaps m.frames cursor else [])
    ++ (if st.activeSnaps.grid then (findGridSnap st cursor).toList else [])
    ++ (if st.activeSnaps.perpendicular then findPerpendicularSnaps m.frames cursor else [])
    ++ (if st.activeSnaps.intersection then findIntersectionSnaps m.frames cursor else [])

/-- The filter `snap.distance <= this.settings.threshold`, translated to
squared distances: `sqrt d2 ≤ threshold` iff the threshold is nonnegative and
`d2 ≤ threshold ^ 2`. -/
def passesThreshold (st : SnapSettings) (c : SnapResult) : Bool :=
  decide (0 ≤ st.threshold ∧ c.dist2 ≤ st.threshold ^ 2)

/-- Head of the stable sort by distance: the first element of the list
attaining the minimal (squared) distance, or `none` on the empty list. -/
def selectBest : List SnapResult → Option SnapResult
  | [] => none
  | c :: cs => some (cs.foldl (fun best x => if x.dist2 < best.dist2 then x else best) c)

/-- `SnapService.findSnapPoint`. -/
def findSnapPoint (m : SnapModel) (st : SnapSettings) (cursor : Vec3) : Option SnapResult :=
  if st.enabled then
    selectBest ((candidatesFor m st cursor).filter (passesThreshold st))
  else none

/-- Structural-space position, the plain `{x, y, z}` records of the store
(x right, y forward, z up). -/
structure Point3 where
  x : ℚ
  y : ℚ
  z : ℚ
deriving DecidableEq

/-- Structural → render mapping used throughout Viewport.tsx:
`new THREE.Vector3(node.x, node.z, -node.y)`. -/
def toRenderVec (p : Point3) : Vec3 :=
  { x := p.x, y := p.z, z := -p.y }

/-- Render → structural mapping used in SnapDetector's `useFrame` and in
DrawingClickHandler: `{ x: v.x, y: -v.z, z: v.y }`. -/
def toStructuralVec (v : Vec3) : Point3 :=
  { x := v.x, y := -v.z, z := v.y }

/-- The `DrawingState` union of DrawingService.ts and the store. -/
inductive DrawingState where
  | idle
  | drawing
deriving DecidableEq

/-- The `DrawingConfig` interface (material/section defaults omitted: they
never influence control flow in the embedded operations). -/
structure DrawingConfig where
  continuousMode : Bool
  autoCreateNodes : Bool
deriving DecidableEq

/-- The store's `drawingMode` slice. -/
structure DrawingModeState where
  isActive : Bool
  state : DrawingState
  startPoint : Option Point3
  startNodeId : Option ℤ
  currentPoint : Option Point3
  config : DrawingConfig
deriving DecidableEq

/-- A node record as returned by `api.nodes.create` and stored in
`state.nodes`. -/
structure StoreNode where
  id : ℤ
  x : ℚ
  y : ℚ
  z : ℚ
deriving DecidableEq

/-- A frame record as returned by `api.frames.create` and stored in
`state.frames`. -/
structure StoreFrame where
  id : ℤ
  node_i_id : ℤ
  node_j_id : ℤ
deriving DecidableEq

/-- The `node_count` / `frame_count` summary of `state.project`. -/
structure ProjectMeta where
  node_count : ℤ
  frame_count : ℤ
deriving DecidableEq

/-- The slice of the zustand store that the drawing operations read and
write. -/
structure Store where
  projectId : Option ℤ
  project : Option ProjectMeta
  nodes : List StoreNode
  frames : List StoreFrame
  drawingMode : DrawingModeState
  error : Option String
  modelModified : Bool
deriving DecidableEq

/-- Backend id assignment for `api.nodes.create` / `api.frames.create`: ids
are chosen by the persistence collaborator, modelled as fresh counters. -/
structure Backend where
  nextNodeId : ℤ
  nextFrameId : ℤ
deriving DecidableEq

/-- Success or failure of the two external creation endpoints during one
commit: `nodeOk` governs every `api.nodes.create` call, `frameOk` the
`api.frames.create` call.  A `false` flag makes the corresponding `await`
throw, landing in the `catch` block of `completeDrawing`. -/
structure ApiBehavior where
  nodeOk : Bool
  frameOk : Bool
deriving DecidableEq

/-- A request issued to the model-mutation interface. -/
inductive Request where
  | createNode (projectId : ℤ) (x y z : ℚ)
  | createFrame (projectId : ℤ) (node_i_id node_j_id : ℤ)
deriving DecidableEq

/-- Result of one store operation: the new store, the new backend counters,
and the requests issued to the persistence collaborator, in order. -/
structure CommitResult where
  store : Store
  backend : Backend
  requests : List Request
deriving DecidableEq

/-- The store's `startDrawing` action (first click). -/
def startDrawing (s : Store) (point : Point3) (nodeId : Option ℤ) : Store :=
  { s with
      drawingMode :=
        { s.drawingMode with
            state := DrawingState.drawing
            startPoint := some point
            startNodeId := nodeId
            currentPoint := some point } }

/-- The store's `completeDrawing` action (second click).  Mirrors the source
step by step: guard, create start node if `startNodeId` is null, create end
node if `endNodeId` is null/undefined, create the frame, then re-arm
(continuous mode) or reset to idle; any failed creation call jumps to the
`catch`, which only sets `error` and keeps everything already updated.
JavaScript truthiness: `!projectId` also rejects a zero project id. -/
def completeDrawing (beh : ApiBehavior) (s : Store) (bk : Backend)
    (endPoint : Point3) (endNodeId : Option ℤ) : CommitResult :=
  match s.projectId, s.drawingMode.state, s.drawingMode.startPoint with
  | some projectId, DrawingState.drawing, some startPoint =>
    if projectId = 0 then { store := s, backend := bk, requests := [] }
    else
      -- create start node if needed
      let startReqs : List Request :=
        match s.drawingMode.startNodeId with
        | none => [Request.createNode projectId startPoint.x startPoint.y startPoint.z]
        | some _ => []
      match s.drawingMode.startNodeId, beh.nodeOk with
      | none, false =>
          { store := { s with error := some "Failed to create frame" }
            backend := bk
            requests := startReqs }
      | startNodeIdOpt, _ =>
        let startNodeId : ℤ := startNodeIdOpt.getD bk.nextNodeId
        let s1 : Store :=
          match startNodeIdOpt with
          | none =>
              { s with
                  nodes := s.nodes ++
                    [{ id := bk.nextNodeId, x := startPoint.x, y := startPoint.y,
                       z := startPoint.z }]
                  project := s.project.map fun p =>
                    { p with node_count := p.node_count + 1 }
                  modelModified := true }
          | some _ => s
        let bk1 : Backend :=
          match startNodeIdOpt with
          | none => { bk with nextNodeId := bk.nextNodeId + 1 }
          | some _ => bk
        -- create end node if needed
        let endReqs : List Request :=
          match endNodeId with
          | none => [Request.createNode projectId endPoint.x endPoint.y endPoint.z]
          | some _ => []
        match endNodeId, beh.nodeOk with
        | none, false =>
            { store := { s1 with error := some "Failed to create frame" }
              backend := bk1
              requests := startReqs ++ endReqs }
        | endNodeIdOpt, _ =>
          let finalEndNodeId : ℤ := endNodeIdOpt.getD bk1.nextNodeId
          let s2 : Store :=
            match endNodeIdOpt with
            | none =>
                { s1 with
                    nodes := s1.nodes ++
                      [{ id := bk1.nextNodeId, x := endPoint.x, y := endPoint.y,
                         z := endPoint.z }]
                    project := s1.project.map fun p =>
                      { p with node_count := p.node_count + 1 }
                    modelModified := true }
            | some _ => s1
          let bk2 : Backend :=
            match endNodeIdOpt with
            | none => { bk1 with nextNodeId := bk1.nextNodeId + 1 }
            | some _ => bk1
          -- create frame between nodes
          let frameReq := Request.createFrame projectId startNodeId finalEndNodeId
          if beh.frameOk then
            let s3 : Store :=
              { s2 with
                  frames := s2.frames ++
                    [{ id := bk2.nextFrameId, node_i_id := startNodeId,
                       node_j_id := finalEndNodeId }]
                  project := s2.project.map fun p =>
                    { p with frame_count := p.frame_count + 1 }
                  modelModified := true }
            let bk3 : Backend := { bk2 with nextFrameId := bk2.nextFrameId + 1 }
            let s4 : Store :=
              if s.drawingMode.config.continuousMode then
                { s3 with
                    drawingMode :=
                      { s3.drawingMode with
                          startPoint := some endPoint
                          startNodeId := some finalEndNodeId
                          currentPoint := some endPoint } }
              else
                { s3 with
                    drawingMode :=
                      { s3.drawingMode with
                          state := DrawingState.idle
                          startPoint := none
                          startNodeId := none
                          currentPoint := none } }
            { store := s4
              backend := bk3
              requests := startReqs ++ endReqs ++ [frameReq] }
          else
            { store := { s2 with error := some "Failed to create frame" }
              backend := bk2
              requests := startReqs ++ endReqs ++ [frameReq] }
  | _, _, _ => { store := s, backend := bk, requests := [] }

/-- DrawingClickHandler's `handleClick` dispatch: ignore clicks while drawing
mode is off; first click starts, second click commits. -/
def handlePick (beh : ApiBehavior) (s : Store) (bk : Backend)
    (point : Point3) (nodeId : Option ℤ) : CommitResult :=
  if s.drawingMode.isActive then
    match s.drawingMode.state with
    | DrawingState.idle =>
        { store := startDrawing s point nodeId, backend := bk, requests := [] }
    | DrawingState.drawing => completeDrawing beh s bk point nodeId
  else { store := s, backend := bk, requests := [] }

/-! Helper lemmas about the selection step of `findSnapPoint`. -/

/-- The fold used by `selectBest`, named for the lemmas below. -/
def minStep (best x : SnapResult) : SnapResult :=
  if x.dist2 < best.dist2 then x else best

lemma selectBest_cons (a : SnapResult) (l : List SnapResult) :
    selectBest (a :: l) = some (l.foldl minStep a) := rfl

lemma foldl_minStep_spec (l : List SnapResult) (a : SnapResult) :
    ∃ l₁ l₂,
      a :: l = l₁ ++ (l.foldl minStep a) :: l₂
        ∧ (∀ x ∈ l₁, (l.foldl minStep a).dist2 < x.dist2)
        ∧ (∀ x ∈ l₂, (l.foldl minStep a).dist2 ≤ x.dist2) := by
  induction l generalizing a with
  | nil => exact ⟨[], [], rfl, by simp, by simp⟩
  | cons x xs ih =>
    have hstep : (x :: xs).foldl minStep a = xs.foldl minStep (minStep a x) := rfl
    obtain ⟨l₁, l₂, heq, hlt, hle⟩ := ih (minStep a x)
    rw [hstep]
    by_cases hx : x.dist2 < a.dist2
    · have hax : minStep a x = x := if_pos hx
      rw [hax] at heq hlt hle ⊢
      cases l₁ with
      | nil =>
        rw [List.nil_append] at heq
        injection heq with hc hl₂
        refine ⟨[a], l₂, ?_, ?_, ?_⟩
        · rw [← hc, ← hl₂]
          rfl
        · intro y hy
          rw [List.mem_singleton] at hy
          subst hy
          rw [← hc]
          exact hx
        · exact hle
      | cons b t =>
        rw [List.cons_append] at heq
        injection heq with hb hxs
        refine ⟨a :: x :: t, l₂, ?_, ?_, ?_⟩
        · rw [List.cons_append, List.cons_append, ← hxs]
        · intro y hy
          have hrx : (xs.foldl minStep x).dist2 < x.dist2 := by
            have := hlt b (List.mem_cons_self b t)
            rw [← hb] at this
            exact this
          rcases List.mem_cons.mp hy with hy | hy
          · subst hy
            exact lt_trans hrx hx
          · rcases List.mem_cons.mp hy with hy | hy
            · subst hy
              exact hrx
            · exact hlt y (List.mem_cons_of_mem b hy)
        · exact hle
    · have hax : minStep a x = a := if_neg hx
      rw [hax] at heq hlt hle ⊢
      cases l₁ with
      | nil =>
        rw [List.nil_append] at heq
        injection heq with hc hl₂
        refine ⟨[], x :: l₂, ?_, ?_, ?_⟩
        · rw [← hc, ← hl₂]
          rfl
        · intro y hy
          exact absurd hy (List.not_mem_nil y)
        · intro y hy
          rcases List.mem_cons.mp hy with hy | hy
          · subst hy
            rw [← hc]
            exact le_of_not_lt hx
          · exact hle y hy
      | cons b t =>
        rw [List.cons_append] at heq
        injection heq with hb hxs
        refine ⟨a :: x :: t, l₂, ?_, ?_, ?_⟩
        · rw [List.cons_append, List.cons_append, ← hxs]
        · intro y hy
          have hra : (xs.foldl minStep a).dist2 < a.dist2 := by
            have := hlt b (List.mem_cons_self b t)
            rw [← hb] at this
            exact this
          rcases List.mem_cons.mp hy with hy | hy
          · subst hy
            exact hra
          · rcases List.mem_cons.mp hy with hy | hy
            · subst hy
              exact lt_of_lt_of_le hra (le_of_not_lt hx)
            · exact hlt y (List.mem_cons_of_mem b hy)
        · exact hle

lemma selectBest_spec {l : List SnapResult} {c : SnapResult} (h : selectBest l = some c) :
    ∃ l₁ l₂, l = l₁ ++ c :: l₂
      ∧ (∀ x ∈ l₁, c.dist2 < x.dist2) ∧ (∀ x ∈ l₂, c.dist2 ≤ x.dist2) := by
  cases l with
  | nil => exact absurd h (by simp [selectBest])
  | cons a xs =>
    rw [selectBest_cons, Option.some.injEq] at h
    subst h
    exact foldl_minStep_spec xs a

lemma selectBest_mem {l : List SnapResult} {c : SnapResult} (h : selectBest l = some c) :
    c ∈ l := by
  obtain ⟨l₁, l₂, heq, -, -⟩ := selectBest_spec h
  rw [heq]
  exact List.mem_append_right l₁ (List.mem_cons_self c l₂)

lemma selectBest_min {l : List SnapResult} {c : SnapResult} (h : selectBest l = some c) :
    ∀ x ∈ l, c.dist2 ≤ x.dist2 := by
  obtain ⟨l₁, l₂, heq, hlt, hle⟩ := selectBest_spec h
  intro x hx
  rw [heq] at hx
  rcases List.mem_append.mp hx with hx | hx
  · exact le_of_lt (hlt x hx)
  · rcases List.mem_cons.mp hx with hx | hx
    · rw [hx]
    · exact hle x hx

lemma selectBest_of_ne_nil {l : List SnapResult} (h : l ≠ []) :
    ∃ c, selectBest l = some c := by
  cases l with
  | nil => exact absurd rfl h
  | cons a xs => exact ⟨xs.foldl minStep a, rfl⟩

/-- Rounding error of `Math.round`: the result is within one half of the
argument. -/
lemma jround_err (r : ℚ) : (r - (jround r : ℚ)) ^ 2 ≤ 1 / 4 := by
  have h1 : (jround r : ℚ) ≤ r + 1 / 2 := by
    rw [jround]
    exact_mod_cast Int.floor_le (r + 1 / 2)
  have h2 : r + 1 / 2 - 1 < (jround r : ℚ) := by
    rw [jround]
    exact_mod_cast Int.sub_one_lt_floor (r + 1 / 2)
  nlinarith

/-- Each horizontal coordinate moves by at most half the grid spacing when
snapped to the nearest grid multiple. -/
lemma grid_coord_err (v s : ℚ) (hs : 0 < s) :
    (v - (jround (v / s) : ℚ) * s) ^ 2 ≤ s ^ 2 / 4 := by
  have h := jround_err (v / s)
  have hv : v - (jround (v / s) : ℚ) * s = s * (v / s - (jround (v / s) : ℚ)) := by
    field_simp
    ring
  rw [hv]
  calc (s * (v / s - (jround (v / s) : ℚ))) ^ 2
      = s ^ 2 * (v / s - (jround (v / s) : ℚ)) ^ 2 := by ring
    _ ≤ s ^ 2 * (1 / 4) := mul_le_mul_of_nonneg_left h (sq_nonneg s)
    _ = s ^ 2 / 4 := by ring

/-- The single candidate `findGridSnap` always produces. -/
def gridCandidate (st : SnapSettings) (cursor : Vec3) : SnapResult :=
  let snapPosition : Vec3 :=
    { x := (jround (cursor.x / st.gridSpacing) : ℚ) * st.gridSpacing
      y := cursor.y
      z := (jround (cursor.z / st.gridSpacing) : ℚ) * st.gridSpacing }
  { type := SnapType.grid
    position := snapPosition
    elementId := none
    dist2 := dist2 cursor snapPosition }

lemma findGridSnap_eq (st : SnapSettings) (cursor : Vec3) :
    findGridSnap st cursor = some (gridCandidate st cursor) := rfl

/-! Claim theorems. -/

/-- C9.  The structural→render mapping `(x,y,z) ↦ (x,z,−y)` and the
render→structural mapping `(X,Y,Z) ↦ (X,−Z,Y)` used at the domain/render
boundary in Viewport.tsx are mutual inverses: composing them either way is
the identity on every position. -/
theorem coordinate_adapter_inverse :
    (∀ p : Point3, toStructuralVec (toRenderVec p) = p)
      ∧ ∀ v : Vec3, toRenderVec (toStructuralVec v) = v := by
  constructor
  · intro p
    cases p
    simp [toRenderVec, toStructuralVec]
  · intro v
    cases v
    simp [toRenderVec, toStructuralVec]

/-- C6 counterexample.  Updating the default settings with a non-positive
threshold (−1) and grid spacing (−2) is not rejected: both new values replace
the previous ones (1/2 and 1). -/
theorem updateSettings_nonpositive_applied_cex :
    (updateSettings DEFAULT_SNAP_SETTINGS
        { enabled := none, activeSnaps := none,
          threshold := some (-1), gridSpacing := some (-2) }).threshold
        ≠ DEFAULT_SNAP_SETTINGS.threshold
      ∧ (updateSettings DEFAULT_SNAP_SETTINGS
          { enabled := none, activeSnaps := none,
            threshold := some (-1), gridSpacing := some (-2) }).gridSpacing
        ≠ DEFAULT_SNAP_SETTINGS.gridSpacing := by
  constructor <;> norm_num [updateSettings, DEFAULT_SNAP_SETTINGS]

/-- C6 amended.  A configuration update carrying a non-positive
thresholdDistance or gridSpacing is applied unconditionally: the spread-merge
replaces the previous values with the non-positive ones and no rejection
occurs (the fields not present in the update are the only ones kept). -/
theorem updateSettings_nonpositive_applied :
    ∀ (s : SnapSettings) (t g : ℚ), t ≤ 0 → g ≤ 0 →
      (updateSettings s
          { enabled := none, activeSnaps := none,
            threshold := some t, gridSpacing := some g }).threshold = t
        ∧ (updateSettings s
            { enabled := none, activeSnaps := none,
              threshold := some t, gridSpacing := some g }).gridSpacing = g
        ∧ (updateSettings s
            { enabled := none, activeSnaps := none,
              threshold := some t, gridSpacing := some g }).enabled = s.enabled
        ∧ (updateSettings s
            { enabled := none, activeSnaps := none,
              threshold := some t, gridSpacing := some g }).activeSnaps
          = s.activeSnaps := by
  intro s t g _ _
  exact ⟨rfl, rfl, rfl, rfl⟩

/-- A one-node model with node and grid snapping enabled; the query
`(1/5, 0, 0)` produces a node candidate and a grid candidate at the same
position `(0,0,0)`, hence at exactly equal distance. -/
def nodeGridModel : SnapModel := ⟨[⟨5, ⟨0, 0, 0⟩⟩], []⟩

/-- Settings enabling only node and grid snaps (threshold 1/2, spacing 1). -/
def nodeGridSettings : SnapSettings :=
  ⟨true, ⟨false, false, true, true, false, false⟩, 1 / 2, 1⟩

/-- The node candidate returned on the node/grid tie of `nodeGridModel`. -/
def nodeGridResult : SnapResult := ⟨SnapType.node, ⟨0, 0, 0⟩, some 5, 1 / 25⟩

/-- C2.  A candidate returned by `findSnapPoint` always satisfies
`distance ≤ threshold` (in squared form: the threshold is nonnegative and
`dist2 ≤ threshold ^ 2`); and if no generated candidate passes the threshold
filter, `findSnapPoint` returns `none` rather than the closest
non-qualifying candidate. -/
theorem findSnapPoint_threshold_invariant :
    (∀ (m : SnapModel) (st : SnapSettings) (q : Vec3) (c : SnapResult),
        findSnapPoint m st q = some c →
          0 ≤ st.threshold ∧ c.dist2 ≤ st.threshold ^ 2)
      ∧ ∀ (m : SnapModel) (st : SnapSettings) (q : Vec3),
          (∀ c ∈ candidatesFor m st q,
              ¬(0 ≤ st.threshold ∧ c.dist2 ≤ st.threshold ^ 2)) →
            findSnapPoint m st q = none := by
  constructor
  · intro m st q c h
    rw [findSnapPoint] at h
    split at h
    · have hc := List.mem_filter.mp (selectBest_mem h)
      exact of_decide_eq_true hc.2
    · exact absurd h (by simp)
  · intro m st q hall
    rw [findSnapPoint]
    split
    · have hnil : (candidatesFor m st q).filter (passesThreshold st) = [] := by
        rw [List.filter_eq_nil_iff]
        intro c hc
        simp only [passesThreshold, decide_eq_true_eq]
        exact hall c hc
      rw [hnil]
      rfl
    · rfl

/-- C2 witness: on `nodeGridModel` the query `(1/5, 0, 0)` returns the node
candidate, and the theorem yields its threshold bound. -/
theorem findSnapPoint_threshold_invariant_witness :
    0 ≤ nodeGridSettings.threshold
      ∧ nodeGridResult.dist2 ≤ nodeGridSettings.threshold ^ 2 :=
  findSnapPoint_threshold_invariant.1 nodeGridModel nodeGridSettings
    ⟨1 / 5, 0, 0⟩ nodeGridResult
    (by norm_num [findSnapPoint, candidatesFor, findNodeSnaps, findGridSnap,
      passesThreshold, selectBest, minStep, dist2, jround, nodeGridModel,
      nodeGridSettings, nodeGridResult, List.filter])

/-- The snap model of the grid/perpendicular tie: one frame from the origin
to `(4,0,0)`. -/
def gridPerpModel : SnapModel := ⟨[], [⟨1, ⟨0, 0, 0⟩, ⟨4, 0, 0⟩⟩]⟩

/-- Settings enabling only grid and perpendicular snaps (threshold 3/5,
spacing 1). -/
def gridPerpSettings : SnapSettings :=
  ⟨true, ⟨false, false, false, true, true, false⟩, 3 / 5, 1⟩

/-- C3 counterexample.  The query `(2, 0, 1/2)` produces a grid candidate at
`(2,0,1)` and a perpendicular candidate at `(2,0,0)`, both at squared
distance 1/4 (a tie).  The claimed priority order places perpendicular above
grid, but the code pushes the grid candidate before the perpendicular one
and the stable sort keeps it, so the grid candidate is returned. -/
theorem tiebreak_priority_cex :
    findSnapPoint gridPerpModel gridPerpSettings ⟨2, 0, 1 / 2⟩
        = some ⟨SnapType.grid, ⟨2, 0, 1⟩, none, 1 / 4⟩
      ∧ findSnapPoint gridPerpModel gridPerpSettings ⟨2, 0, 1 / 2⟩
        ≠ some ⟨SnapType.perpendicular, ⟨2, 0, 0⟩, some 1, 1 / 4⟩ := by
  have h1 : findSnapPoint gridPerpModel gridPerpSettings ⟨2, 0, 1 / 2⟩
      = some ⟨SnapType.grid, ⟨2, 0, 1⟩, none, 1 / 4⟩ := by
    norm_num [findSnapPoint, candidatesFor, findGridSnap,
      findPerpendicularSnaps, passesThreshold, selectBest, minStep, dist2,
      jround, gridPerpModel, gridPerpSettings, List.filter]
  refine ⟨h1, ?_⟩
  rw [h1]
  simp

/-- C3 amended.  Ties are broken by candidate generation order — node,
endpoint, midpoint, grid, perpendicular, intersection (see `candidatesFor`)
— not by the claimed order with grid last: the returned candidate is the
first element of the filtered candidate list attaining the minimal distance,
every earlier valid candidate being strictly farther.  In particular a
node/grid tie still returns the node candidate (witness), but a
perpendicular/grid tie returns the grid candidate (counterexample). -/
theorem findSnapPoint_first_minimal :
    ∀ (m : SnapModel) (st : SnapSettings) (q : Vec3) (c : SnapResult),
      findSnapPoint m st q = some c →
        ∃ l₁ l₂,
          (candidatesFor m st q).filter (passesThreshold st) = l₁ ++ c :: l₂
            ∧ (∀ x ∈ l₁, c.dist2 < x.dist2)
            ∧ (∀ x ∈ l₂, c.dist2 ≤ x.dist2) := by
  intro m st q c h
  rw [findSnapPoint] at h
  split at h
  · exact selectBest_spec h
  · exact absurd h (by simp)

/-- C3 witness: on the node/grid tie of `nodeGridModel` the returned
candidate is the node one, and it splits the valid-candidate list with every
earlier candidate strictly farther (here: none earlier). -/
theorem findSnapPoint_first_minimal_witness :
    ∃ l₁ l₂,
      (candidatesFor nodeGridModel nodeGridSettings ⟨1 / 5, 0, 0⟩).filter
          (passesThreshold nodeGridSettings) = l₁ ++ nodeGridResult :: l₂
        ∧ (∀ x ∈ l₁, nodeGridResult.dist2 < x.dist2)
        ∧ (∀ x ∈ l₂, nodeGridResult.dist2 ≤ x.dist2) :=
  findSnapPoint_first_minimal nodeGridModel nodeGridSettings
    ⟨1 / 5, 0, 0⟩ nodeGridResult
    (by norm_num [findSnapPoint, candidatesFor, findNodeSnaps, findGridSnap,
      passesThreshold, selectBest, minStep, dist2, jround, nodeGridModel,
      nodeGridSettings, nodeGridResult, List.filter])

/-- The spec scenario: points `(0,0,0)` id 1 and `(5,0,0)` id 2, one element
id 10 between them. -/
def scenarioModel : SnapModel :=
  ⟨[⟨1, ⟨0, 0, 0⟩⟩, ⟨2, ⟨5, 0, 0⟩⟩], [⟨10, ⟨0, 0, 0⟩, ⟨5, 0, 0⟩⟩]⟩

/-- Scenario settings: threshold 1/2, grid spacing 1, all six snap types
enabled. -/
def scenarioAllSettings : SnapSettings :=
  ⟨true, ⟨true, true, true, true, true, true⟩, 1 / 2, 1⟩

/-- Scenario settings with the perpendicular type disabled and the other
five enabled. -/
def scenarioNoPerpSettings : SnapSettings :=
  ⟨true, ⟨true, true, true, true, false, true⟩, 1 / 2, 1⟩

/-- The scenario query `(2.4, 0.05, 0)`. -/
def scenarioQuery : Vec3 := ⟨12 / 5, 1 / 20, 0⟩

/-- C4 counterexample.  On the spec scenario with all six snap types enabled
the result is not the claimed midpoint candidate: the perpendicular foot
`(2.4, 0, 0)` lies at distance 0.05 (squared 1/400) from the query, closer
than the midpoint's ≈0.1118 (squared 1/80), so the perpendicular candidate
is returned. -/
theorem scenario_midpoint_cex :
    findSnapPoint scenarioModel scenarioAllSettings scenarioQuery
        = some ⟨SnapType.perpendicular, ⟨12 / 5, 0, 0⟩, some 10, 1 / 400⟩
      ∧ findSnapPoint scenarioModel scenarioAllSettings scenarioQuery
        ≠ some ⟨SnapType.midpoint, ⟨5 / 2, 0, 0⟩, some 10, 1 / 80⟩ := by
  have h1 : findSnapPoint scenarioModel scenarioAllSettings scenarioQuery
      = some ⟨SnapType.perpendicular, ⟨12 / 5, 0, 0⟩, some 10, 1 / 400⟩ := by
    norm_num [findSnapPoint, candidatesFor, findNodeSnaps, findEndpointSnaps,
      findMidpointSnaps, findGridSnap, findPerpendicularSnaps,
      findIntersectionSnaps, pairsOf, passesThreshold, selectBest, minStep,
      dist2, jround, scenarioModel, scenarioAllSettings, scenarioQuery,
      List.filter]
  refine ⟨h1, ?_⟩
  rw [h1]
  simp

/-- C4 amended.  The scenario result claimed by the spec — the midpoint
candidate at `(2.5, 0, 0)`, distance ≈0.1118 (squared distance 1/80, and
indeed `0.1118² ≤ 1/80 ≤ 0.1119²`) — is what `findSnapPoint` returns once
the perpendicular snap type is disabled; with all six types enabled the
perpendicular foot wins instead (see the counterexample). -/
theorem scenario_midpoint_without_perpendicular :
    findSnapPoint scenarioModel scenarioNoPerpSettings scenarioQuery
        = some ⟨SnapType.midpoint, ⟨5 / 2, 0, 0⟩, some 10, 1 / 80⟩
      ∧ ((1118 / 10000 : ℚ) ^ 2 ≤ 1 / 80 ∧ (1 / 80 : ℚ) ≤ (1119 / 10000) ^ 2) := by
  constructor
  · norm_num [findSnapPoint, candidatesFor, findNodeSnaps, findEndpointSnaps,
      findMidpointSnaps, findGridSnap, findPerpendicularSnaps,
      findIntersectionSnaps, pairsOf, passesThreshold, selectBest, minStep,
      dist2, jround, scenarioModel, scenarioNoPerpSettings, scenarioQuery,
      List.filter]
  · norm_num

/-- Settings for the C10 witness: everything enabled, threshold 1, grid
spacing 1. -/
def gridWitnessSettings : SnapSettings :=
  ⟨true, ⟨true, true, true, true, true, true⟩, 1, 1⟩

/-- Settings for the C10 counterexample: everything enabled, threshold 1/10,
grid spacing −2 (never rejected, see the C6 theorems). -/
def gridCexSettings : SnapSettings :=
  ⟨true, ⟨true, true, true, true, true, true⟩, 1 / 10, -2⟩

/-- C10 amended.  If snapping and the grid type are enabled, the grid
spacing is positive, and the threshold is at least `gridSpacing·√2/2`, then
`findSnapPoint` never returns `none`: the grid candidate always exists, its
height equals the query's height, its squared distance is at most
`gridSpacing²/2` (i.e. its distance is at most `gridSpacing·√2/2`), and it
passes the threshold filter.  Positivity of the spacing is required: the
claim as stated fails for a negative spacing (see the counterexample). -/
theorem grid_fallback_threshold :
    ∀ (m : SnapModel) (st : SnapSettings) (q : Vec3),
      st.enabled = true → st.activeSnaps.grid = true → 0 < st.gridSpacing →
      (st.gridSpacing : ℝ) * Real.sqrt 2 / 2 ≤ (st.threshold : ℝ) →
      (∃ c, findSnapPoint m st q = some c)
        ∧ ∃ g, findGridSnap st q = some g
            ∧ g.position.y = q.y
            ∧ g.dist2 ≤ st.gridSpacing ^ 2 / 2
            ∧ passesThreshold st g = true := by
  intro m st q hen hgr hs hth
  have hsqrt2 : (0 : ℝ) < Real.sqrt 2 := Real.sqrt_pos.mpr (by norm_num)
  have hsR : (0 : ℝ) < (st.gridSpacing : ℝ) := by exact_mod_cast hs
  have hthposR : (0 : ℝ) < (st.threshold : ℝ) :=
    lt_of_lt_of_le (by positivity) hth
  have hthpos : 0 ≤ st.threshold := by exact_mod_cast le_of_lt hthposR
  have hsq2 : (Real.sqrt 2) ^ 2 = 2 := Real.sq_sqrt (by norm_num)
  have key : 0 ≤ ((st.threshold : ℝ) - (st.gridSpacing : ℝ) * Real.sqrt 2 / 2)
      * ((st.threshold : ℝ) + (st.gridSpacing : ℝ) * Real.sqrt 2 / 2) :=
    mul_nonneg (sub_nonneg.mpr hth) (by positivity)
  have hboundR : ((st.gridSpacing ^ 2 / 2 : ℚ) : ℝ) ≤ ((st.threshold ^ 2 : ℚ) : ℝ) := by
    push_cast
    nlinarith [key, hsq2]
  have hboundQ : st.gridSpacing ^ 2 / 2 ≤ st.threshold ^ 2 := by exact_mod_cast hboundR
  have hd : (gridCandidate st q).dist2 ≤ st.gridSpacing ^ 2 / 2 := by
    have h1 := grid_coord_err q.x st.gridSpacing hs
    have h2 := grid_coord_err q.z st.gridSpacing hs
    show dist2 q _ ≤ _
    rw [dist2]
    nlinarith [h1, h2]
  have hpass : passesThreshold st (gridCandidate st q) = true := by
    rw [passesThreshold]
    exact decide_eq_true ⟨hthpos, le_trans hd hboundQ⟩
  have hmem : gridCandidate st q ∈ candidatesFor m st q := by
    simp [candidatesFor, List.mem_append, hgr, findGridSnap_eq]
  have hmemf : gridCandidate st q
      ∈ (candidatesFor m st q).filter (passesThreshold st) :=
    List.mem_filter.mpr ⟨hmem, hpass⟩
  obtain ⟨c, hc⟩ := selectBest_of_ne_nil (List.ne_nil_of_mem hmemf)
  refine ⟨⟨c, ?_⟩, gridCandidate st q, findGridSnap_eq st q, rfl, hd, hpass⟩
  rw [findSnapPoint, hen]
  simpa using hc

/-- C10 witness: the amended theorem applied to the empty model, unit
threshold and spacing, and the query `(3/10, 7, 2/5)`. -/
theorem grid_fallback_threshold_witness :
    (∃ c, findSnapPoint ⟨[], []⟩ gridWitnessSettings ⟨3 / 10, 7, 2 / 5⟩ = some c)
      ∧ ∃ g, findGridSnap gridWitnessSettings ⟨3 / 10, 7, 2 / 5⟩ = some g
          ∧ g.position.y = (⟨3 / 10, 7, 2 / 5⟩ : Vec3).y
          ∧ g.dist2 ≤ gridWitnessSettings.gridSpacing ^ 2 / 2
          ∧ passesThreshold gridWitnessSettings g = true :=
  grid_fallback_threshold ⟨[], []⟩ gridWitnessSettings ⟨3 / 10, 7, 2 / 5⟩
    rfl rfl (by norm_num [gridWitnessSettings])
    (by
      have h2 : Real.sqrt 2 ≤ 2 := by
        nlinarith [Real.sq_sqrt (show (0 : ℝ) ≤ 2 by norm_num),
          Real.sqrt_nonneg 2]
      norm_num [gridWitnessSettings]
      nlinarith [h2])

/-- C10 counterexample.  With grid spacing −2 and threshold 1/10 the
hypothesis `gridSpacing·√2/2 ≤ threshold` of the claim holds (the left side
is negative), snapping and the grid type are enabled, yet on the empty model
the query `(1, 0, 1)` snaps to the grid point `(0,0,0)` at squared distance
2, which fails the threshold filter, so `findSnapPoint` returns `none`. -/
theorem grid_fallback_cex :
    (gridCexSettings.gridSpacing : ℝ) * Real.sqrt 2 / 2
        ≤ (gridCexSettings.threshold : ℝ)
      ∧ gridCexSettings.enabled = true
      ∧ gridCexSettings.activeSnaps.grid = true
      ∧ findSnapPoint ⟨[], []⟩ gridCexSettings ⟨1, 0, 1⟩ = none := by
  refine ⟨?_, rfl, rfl, ?_⟩
  · have h0 : (0 : ℝ) ≤ Real.sqrt 2 := Real.sqrt_nonneg 2
    norm_num [gridCexSettings]
    nlinarith [h0]
  · norm_num [findSnapPoint, candidatesFor, findNodeSnaps, findEndpointSnaps,
      findMidpointSnaps, findGridSnap, findPerpendicularSnaps,
      findIntersectionSnaps, pairsOf, passesThreshold, selectBest, minStep,
      dist2, jround, gridCexSettings, List.filter]

/-- C8 counterexample.  A horizontal frame at height 0 and a crossing frame
at height 5 intersect in the XZ plane at `(1, ·, 0)`; computing the
intersection of A with B interpolates the height along A giving `(1,0,0)`,
while B with A gives `(1,5,0)` — different 3D points. -/
theorem intersection_symmetry_cex :
    findLineIntersection ⟨1, ⟨0, 0, 0⟩, ⟨2, 0, 0⟩⟩ ⟨2, ⟨1, 5, -1⟩, ⟨1, 5, 1⟩⟩
        = some ⟨1, 0, 0⟩
      ∧ findLineIntersection ⟨2, ⟨1, 5, -1⟩, ⟨1, 5, 1⟩⟩ ⟨1, ⟨0, 0, 0⟩, ⟨2, 0, 0⟩⟩
        = some ⟨1, 5, 0⟩
      ∧ (⟨1, 0, 0⟩ : Vec3) ≠ ⟨1, 5, 0⟩ := by
  refine ⟨?_, ?_, ?_⟩
  · norm_num [findLineIntersection]
  · norm_num [findLineIntersection]
  · simp [Vec3.mk.injEq]

/-- C8 amended.  Whenever both orders accept an intersection, the two
accepted points agree in the horizontal coordinates (X and Z); moreover
acceptance itself is symmetric: if `A ∩ B` is accepted then so is `B ∩ A`.
Only the vertical coordinate may differ, because it is interpolated along
the first argument (counterexample). -/
theorem intersection_symmetry_horizontal :
    ∀ (f1 f2 : FrameData) (p : Vec3),
      findLineIntersection f1 f2 = some p →
        ∃ q, findLineIntersection f2 f1 = some q ∧ p.x = q.x ∧ p.z = q.z := by
  intro f1 f2 p h
  obtain ⟨id1, ⟨x1, y1, z1⟩, ⟨x2, y2, z2⟩⟩ := f1
  obtain ⟨id2, ⟨x3, y3, z3⟩, ⟨x4, y4, z4⟩⟩ := f2
  simp only [findLineIntersection] at h ⊢
  split at h
  · exact absurd h (by simp)
  case isFalse hD =>
    split at h
    case isFalse => exact absurd h (by simp)
    case isTrue hcond =>
      rw [Option.some.injEq] at h
      subst h
      have hD0 : (x1 - x2) * (z3 - z4) - (z1 - z2) * (x3 - x4) ≠ 0 := by
        intro h0
        apply hD
        rw [h0]
        norm_num
      have hDneg : (x3 - x4) * (z1 - z2) - (z3 - z4) * (x1 - x2)
          = -((x1 - x2) * (z3 - z4) - (z1 - z2) * (x3 - x4)) := by ring
      have hD0' : (x3 - x4) * (z1 - z2) - (z3 - z4) * (x1 - x2) ≠ 0 := by
        rw [hDneg]
        exact neg_ne_zero.mpr hD0
      have habs : ¬|(x3 - x4) * (z1 - z2) - (z3 - z4) * (x1 - x2)| < 1 / 10000 := by
        rw [hDneg, abs_neg]
        exact hD
      rw [if_neg habs]
      have ht' : ((x3 - x1) * (z1 - z2) - (z3 - z1) * (x1 - x2))
            / ((x3 - x4) * (z1 - z2) - (z3 - z4) * (x1 - x2))
          = -((x1 - x2) * (z1 - z3) - (z1 - z2) * (x1 - x3))
            / ((x1 - x2) * (z3 - z4) - (z1 - z2) * (x3 - x4)) := by
        rw [div_eq_div_iff hD0' hD0, neg_mul]
        ring
      have hu' : -((x3 - x4) * (z3 - z1) - (z3 - z4) * (x3 - x1))
            / ((x3 - x4) * (z1 - z2) - (z3 - z4) * (x1 - x2))
          = ((x1 - x3) * (z3 - z4) - (z1 - z3) * (x3 - x4))
            / ((x1 - x2) * (z3 - z4) - (z1 - z2) * (x3 - x4)) := by
        rw [div_eq_div_iff hD0' hD0, neg_mul]
        ring
      obtain ⟨ht0, ht1, hu0, hu1⟩ := hcond
      have hcond' : 0 ≤ ((x3 - x1) * (z1 - z2) - (z3 - z1) * (x1 - x2))
            / ((x3 - x4) * (z1 - z2) - (z3 - z4) * (x1 - x2))
          ∧ ((x3 - x1) * (z1 - z2) - (z3 - z1) * (x1 - x2))
              / ((x3 - x4) * (z1 - z2) - (z3 - z4) * (x1 - x2)) ≤ 1
          ∧ 0 ≤ -((x3 - x4) * (z3 - z1) - (z3 - z4) * (x3 - x1))
              / ((x3 - x4) * (z1 - z2) - (z3 - z4) * (x1 - x2))
          ∧ -((x3 - x4) * (z3 - z1) - (z3 - z4) * (x3 - x1))
              / ((x3 - x4) * (z1 - z2) - (z3 - z4) * (x1 - x2)) ≤ 1 := by
        rw [ht', hu']
        exact ⟨hu0, hu1, ht0, ht1⟩
      rw [if_pos hcond']
      refine ⟨_, rfl, ?_, ?_⟩
      · show x1 + _ * (x2 - x1) = x3 + _ * (x4 - x3)
        rw [ht']
        field_simp
        ring
      · show z1 + _ * (z2 - z1) = z3 + _ * (z4 - z3)
        rw [ht']
        field_simp
        ring

/-- C8 witness: the amended theorem applied to the counterexample's frames,
yielding the reversed-order intersection with equal X and Z. -/
theorem intersection_symmetry_horizontal_witness :
    ∃ q, findLineIntersection ⟨2, ⟨1, 5, -1⟩, ⟨1, 5, 1⟩⟩ ⟨1, ⟨0, 0, 0⟩, ⟨2, 0, 0⟩⟩
        = some q
      ∧ (⟨1, 0, 0⟩ : Vec3).x = q.x ∧ (⟨1, 0, 0⟩ : Vec3).z = q.z :=
  intersection_symmetry_horizontal ⟨1, ⟨0, 0, 0⟩, ⟨2, 0, 0⟩⟩
    ⟨2, ⟨1, 5, -1⟩, ⟨1, 5, 1⟩⟩ ⟨1, 0, 0⟩ (by norm_num [findLineIntersection])

/-- An Active drawing session anchored at `(1,2,0)` on existing node 7, with
continuous mode off. -/
def anchoredStore : Store :=
  { projectId := some 1
    project := some ⟨2, 0⟩
    nodes := []
    frames := []
    drawingMode :=
      { isActive := true
        state := DrawingState.drawing
        startPoint := some ⟨1, 2, 0⟩
        startNodeId := some 7
        currentPoint := some ⟨1, 2, 0⟩
        config := ⟨false, true⟩ }
    error := none
    modelModified := false }

/-- C1 counterexample.  Committing the pick `(1,2,0)` with node identity 7 —
structurally identical to the anchor and with the same point identity — is
not rejected: a create-element request (from node 7 to itself) is issued,
and with continuous mode off the session leaves `Active` for `Idle` with the
anchor cleared. -/
theorem commit_same_point_not_rejected_cex :
    (completeDrawing ⟨true, true⟩ anchoredStore ⟨100, 50⟩ ⟨1, 2, 0⟩ (some 7)).requests
        = [Request.createFrame 1 7 7]
      ∧ (completeDrawing ⟨true, true⟩ anchoredStore ⟨100, 50⟩ ⟨1, 2, 0⟩
          (some 7)).store.drawingMode.state = DrawingState.idle
      ∧ anchoredStore.drawingMode.startPoint = some ⟨1, 2, 0⟩
      ∧ anchoredStore.drawingMode.startNodeId = some 7 :=
  ⟨rfl, rfl, rfl, rfl⟩

/-- C1 amended.  A commit whose end point resolves to the same point as the
anchor (same structural position and same point identity) is processed like
any other commit: exactly one create-element request is issued, between the
anchor's node identity and itself, and the session transitions according to
`continuousMode` (re-armed `Active` when on, `Idle` when off) instead of
staying `Active` with the anchor unchanged. -/
theorem commit_same_point_issues_element_request :
    ∀ (s : Store) (bk : Backend) (p : Point3) (pid n : ℤ),
      s.projectId = some pid → pid ≠ 0 →
      s.drawingMode.state = DrawingState.drawing →
      s.drawingMode.startPoint = some p →
      s.drawingMode.startNodeId = some n →
      (completeDrawing ⟨true, true⟩ s bk p (some n)).requests
          = [Request.createFrame pid n n]
        ∧ (completeDrawing ⟨true, true⟩ s bk p (some n)).store.drawingMode.state
          = (if s.drawingMode.config.continuousMode then DrawingState.drawing
             else DrawingState.idle) := by
  intro s bk p pid n hproj hpid hstate hsp hsn
  constructor
  · simp [completeDrawing, hproj, hstate, hsp, hsn, hpid]
  · by_cases hcm : s.drawingMode.config.continuousMode
    · simp [completeDrawing, hproj, hstate, hsp, hsn, hpid, hcm]
    · simp [completeDrawing, hproj, hstate, hsp, hsn, hpid, hcm]

/-- C1 witness: the amended theorem applied to the anchored session and the
commit pick identical to its anchor. -/
theorem commit_same_point_issues_element_request_witness :
    (completeDrawing ⟨true, true⟩ anchoredStore ⟨100, 50⟩ ⟨1, 2, 0⟩ (some 7)).requests
        = [Request.createFrame 1 7 7]
      ∧ (completeDrawing ⟨true, true⟩ anchoredStore ⟨100, 50⟩ ⟨1, 2, 0⟩
          (some 7)).store.drawingMode.state
        = (if anchoredStore.drawingMode.config.continuousMode then DrawingState.drawing
           else DrawingState.idle) :=
  commit_same_point_issues_element_request anchoredStore ⟨100, 50⟩ ⟨1, 2, 0⟩ 1 7
    rfl (by decide) rfl rfl rfl

/-- An Active drawing session with a fresh (not yet persisted) anchor at the
origin, continuous mode on. -/
def freshAnchorStore : Store :=
  { projectId := some 1
    project := some ⟨0, 0⟩
    nodes := []
    frames := []
    drawingMode :=
      { isActive := true
        state := DrawingState.drawing
        startPoint := some ⟨0, 0, 0⟩
        startNodeId := none
        currentPoint := some ⟨3, 4, 0⟩
        config := ⟨true, true⟩ }
    error := none
    modelModified := false }

/-- C5 counterexample.  When both point creations succeed and the element
creation fails, the session does not transition to `Idle` as claimed: it
stays in the `drawing` state with the anchor unchanged (the created points
do remain and the error is surfaced). -/
theorem element_failure_stays_active_cex :
    (completeDrawing ⟨true, false⟩ freshAnchorStore ⟨100, 50⟩ ⟨3, 4, 0⟩
          none).store.drawingMode.state = DrawingState.drawing
      ∧ (completeDrawing ⟨true, false⟩ freshAnchorStore ⟨100, 50⟩ ⟨3, 4, 0⟩
          none).store.drawingMode.state ≠ DrawingState.idle
      ∧ (completeDrawing ⟨true, false⟩ freshAnchorStore ⟨100, 50⟩ ⟨3, 4, 0⟩
          none).store.error = some "Failed to create frame"
      ∧ (completeDrawing ⟨true, false⟩ freshAnchorStore ⟨100, 50⟩ ⟨3, 4, 0⟩
          none).store.nodes = [⟨100, 0, 0, 0⟩, ⟨101, 3, 4, 0⟩] :=
  ⟨rfl, by decide, rfl, rfl⟩

/-- C5 amended.  If the element-creation request fails after the two
point-creation requests succeeded, the created points remain in the model
(no rollback request is issued — the requests are exactly the three creation
calls), the failure is surfaced through the store error, but the session
does not return to `Idle`: the whole `drawingMode` slice — state, anchor and
live position — is left unchanged, still `Active`. -/
theorem element_failure_keeps_points_and_session :
    ∀ (s : Store) (bk : Backend) (sp ep : Point3) (pid : ℤ),
      s.projectId = some pid → pid ≠ 0 →
      s.drawingMode.state = DrawingState.drawing →
      s.drawingMode.startPoint = some sp →
      s.drawingMode.startNodeId = none →
      (completeDrawing ⟨true, false⟩ s bk ep none).requests
          = [Request.createNode pid sp.x sp.y sp.z,
             Request.createNode pid ep.x ep.y ep.z,
             Request.createFrame pid bk.nextNodeId (bk.nextNodeId + 1)]
        ∧ (completeDrawing ⟨true, false⟩ s bk ep none).store.nodes
          = s.nodes ++ [⟨bk.nextNodeId, sp.x, sp.y, sp.z⟩,
              ⟨bk.nextNodeId + 1, ep.x, ep.y, ep.z⟩]
        ∧ (completeDrawing ⟨true, false⟩ s bk ep none).store.error
          = some "Failed to create frame"
        ∧ (completeDrawing ⟨true, false⟩ s bk ep none).store.drawingMode
          = s.drawingMode := by
  intro s bk sp ep pid hproj hpid hstate hsp hsn
  refine ⟨?_, ?_, ?_, ?_⟩ <;>
    simp [completeDrawing, hproj, hstate, hsp, hsn, hpid]

/-- C5 witness: the amended theorem applied to the fresh-anchor session with
a failing element creation. -/
theorem element_failure_keeps_points_and_session_witness :
    (completeDrawing ⟨true, false⟩ freshAnchorStore ⟨100, 50⟩ ⟨3, 4, 0⟩ none).requests
        = [Request.createNode 1 0 0 0, Request.createNode 1 3 4 0,
           Request.createFrame 1 100 (100 + 1)]
      ∧ (completeDrawing ⟨true, false⟩ freshAnchorStore ⟨100, 50⟩ ⟨3, 4, 0⟩
          none).store.nodes
        = freshAnchorStore.nodes ++ [⟨100, 0, 0, 0⟩, ⟨100 + 1, 3, 4, 0⟩]
      ∧ (completeDrawing ⟨true, false⟩ freshAnchorStore ⟨100, 50⟩ ⟨3, 4, 0⟩
          none).store.error = some "Failed to create frame"
      ∧ (completeDrawing ⟨true, false⟩ freshAnchorStore ⟨100, 50⟩ ⟨3, 4, 0⟩
          none).store.drawingMode = freshAnchorStore.drawingMode :=
  element_failure_keeps_points_and_session freshAnchorStore ⟨100, 50⟩
    ⟨0, 0, 0⟩ ⟨3, 4, 0⟩ 1 rfl (by decide) rfl rfl rfl

/-- An Idle drawing surface (drawing mode on, continuous mode on), ready for
a pick sequence. -/
def idleStore : Store :=
  { projectId := some 1
    project := some ⟨0, 0⟩
    nodes := []
    frames := []
    drawingMode :=
      { isActive := true
        state := DrawingState.idle
        startPoint := none
        startNodeId := none
        currentPoint := none
        config := ⟨true, true⟩ }
    error := none
    modelModified := false }

/-- C7.  With continuous mode on and all persistence calls succeeding, three
picks `p1, p2, p3` from `Idle` issue exactly two element-creation requests —
`p1–p2` between the fresh ids `n, n+1` and `p2–p3` between `n+1, n+2` — the
point `p2` is created exactly once (one node-creation request at `p2`, whose
id `n+1` is reused as the start identity of the second element), and the
session remains `Active` (state `drawing`) after each commit. -/
theorem continuous_chaining_two_elements :
    ∀ (s : Store) (bk : Backend) (p1 p2 p3 : Point3) (pid : ℤ),
      s.projectId = some pid → pid ≠ 0 →
      s.drawingMode.isActive = true →
      s.drawingMode.state = DrawingState.idle →
      s.drawingMode.config.continuousMode = true →
      p1 ≠ p2 → p3 ≠ p2 →
      let r1 := handlePick ⟨true, true⟩ s bk p1 none
      let r2 := handlePick ⟨true, true⟩ r1.store r1.backend p2 none
      let r3 := handlePick ⟨true, true⟩ r2.store r2.backend p3 none
      r1.requests = []
        ∧ r2.requests = [Request.createNode pid p1.x p1.y p1.z,
            Request.createNode pid p2.x p2.y p2.z,
            Request.createFrame pid bk.nextNodeId (bk.nextNodeId + 1)]
        ∧ r3.requests = [Request.createNode pid p3.x p3.y p3.z,
            Request.createFrame pid (bk.nextNodeId + 1) (bk.nextNodeId + 2)]
        ∧ r2.store.drawingMode.state = DrawingState.drawing
        ∧ r3.store.drawingMode.state = DrawingState.drawing
        ∧ r2.store.drawingMode.startNodeId = some (bk.nextNodeId + 1)
        ∧ ((r2.requests ++ r3.requests).filter
            (fun r => decide (r = Request.createNode pid p2.x p2.y p2.z))).length
          = 1 := by
  intro s bk p1 p2 p3 pid hproj hpid hactive hstate hcont hp12 hp32
  have hne1 : ¬(Request.createNode pid p1.x p1.y p1.z
      = Request.createNode pid p2.x p2.y p2.z) := by
    simp only [Request.createNode.injEq]
    rintro ⟨-, hx, hy, hz⟩
    apply hp12
    cases p1
    cases p2
    simp_all
  have hne3 : ¬(Request.createNode pid p3.x p3.y p3.z
      = Request.createNode pid p2.x p2.y p2.z) := by
    simp only [Request.createNode.injEq]
    rintro ⟨-, hx, hy, hz⟩
    apply hp32
    cases p3
    cases p2
    simp_all
  simp [handlePick, startDrawing, completeDrawing, hproj, hpid, hactive,
    hstate, hcont, List.filter, hne1, hne3,
    show bk.nextNodeId + 1 + 1 = bk.nextNodeId + 2 from by ring]

/-- C7 witness: the chaining theorem applied to the idle surface and the
picks `(0,0,0)`, `(1,0,0)`, `(1,2,0)`. -/
theorem continuous_chaining_two_elements_witness :
    (handlePick ⟨true, true⟩ idleStore ⟨100, 50⟩ ⟨0, 0, 0⟩ none).requests = []
      ∧ (handlePick ⟨true, true⟩
            (handlePick ⟨true, true⟩ idleStore ⟨100, 50⟩ ⟨0, 0, 0⟩ none).store
            (handlePick ⟨true, true⟩ idleStore ⟨100, 50⟩ ⟨0, 0, 0⟩ none).backend
            ⟨1, 0, 0⟩ none).requests
        = [Request.createNode 1 0 0 0, Request.createNode 1 1 0 0,
           Request.createFrame 1 100 (100 + 1)]
      ∧ (handlePick ⟨true, true⟩
            (handlePick ⟨true, true⟩
              (handlePick ⟨true, true⟩ idleStore ⟨100, 50⟩ ⟨0, 0, 0⟩ none).store
              (handlePick ⟨true, true⟩ idleStore ⟨100, 50⟩ ⟨0, 0, 0⟩ none).backend
              ⟨1, 0, 0⟩ none).store
            (handlePick ⟨true, true⟩
              (handlePick ⟨true, true⟩ idleStore ⟨100, 50⟩ ⟨0, 0, 0⟩ none).store
              (handlePick ⟨true, true⟩ idleStore ⟨100, 50⟩ ⟨0, 0, 0⟩ none).backend
              ⟨1, 0, 0⟩ none).backend
            ⟨1, 2, 0⟩ none).requests
        = [Request.createNode 1 1 2 0, Request.createFrame 1 (100 + 1) (100 + 2)]
      ∧ (handlePick ⟨true, true⟩
            (handlePick ⟨true, true⟩ idleStore ⟨100, 50⟩ ⟨0, 0, 0⟩ none).store
            (handlePick ⟨true, true⟩ idleStore ⟨100, 50⟩ ⟨0, 0, 0⟩ none).backend
            ⟨1, 0, 0⟩ none).store.drawingMode.state = DrawingState.drawing
      ∧ (handlePick ⟨true, true⟩
            (handlePick ⟨true, true⟩
              (handlePick ⟨true, true⟩ idleStore ⟨100, 50⟩ ⟨0, 0, 0⟩ none).store
              (handlePick ⟨true, true⟩ idleStore ⟨100, 50⟩ ⟨0, 0, 0⟩ none).backend
              ⟨1, 0, 0⟩ none).store
            (handlePick ⟨true, true⟩
              (handlePick ⟨true, true⟩ idleStore ⟨100, 50⟩ ⟨0, 0, 0⟩ none).store
              (handlePick ⟨true, true⟩ idleStore ⟨100, 50⟩ ⟨0, 0, 0⟩ none).backend
              ⟨1, 0, 0⟩ none).backend
            ⟨1, 2, 0⟩ none).store.drawingMode.state = DrawingState.drawing
      ∧ (handlePick ⟨true, true⟩
            (handlePick ⟨true, true⟩ idleStore ⟨100, 50⟩ ⟨0, 0, 0⟩ none).store
            (handlePick ⟨true, true⟩ idleStore ⟨100, 50⟩ ⟨0, 0, 0⟩ none).backend
            ⟨1, 0, 0⟩ none).store.drawingMode.startNodeId = some (100 + 1)
      ∧ (((handlePick ⟨true, true⟩
              (handlePick ⟨true, true⟩ idleStore ⟨100, 50⟩ ⟨0, 0, 0⟩ none).store
              (handlePick ⟨true, true⟩ idleStore ⟨100, 50⟩ ⟨0, 0, 0⟩ none).backend
              ⟨1, 0, 0⟩ none).requests
            ++ (handlePick ⟨true, true⟩
                (handlePick ⟨true, true⟩
                  (handlePick ⟨true, true⟩ idleStore ⟨100, 50⟩ ⟨0, 0, 0⟩ none).store
                  (handlePick ⟨true, true⟩ idleStore ⟨100, 50⟩ ⟨0, 0, 0⟩ none).backend
                  ⟨1, 0, 0⟩ none).store
                (handlePick ⟨true, true⟩
                  (handlePick ⟨true, true⟩ idleStore ⟨100, 50⟩ ⟨0, 0, 0⟩ none).store
                  (handlePick ⟨true, true⟩ idleStore ⟨100, 50⟩ ⟨0, 0, 0⟩ none).backend
                  ⟨1, 0, 0⟩ none).backend
                ⟨1, 2, 0⟩ none).requests).filter
          (fun r => decide (r = Request.createNode 1 (⟨1, 0, 0⟩ : Point3).x
            (⟨1, 0, 0⟩ : Point3).y (⟨1, 0, 0⟩ : Point3).z))).length = 1 :=
  continuous_chaining_two_elements idleStore ⟨100, 50⟩ ⟨0, 0, 0⟩ ⟨1, 0, 0⟩
    ⟨1, 2, 0⟩ 1 rfl (by decide) rfl rfl rfl (by simp [Point3.mk.injEq])
    (by simp [Point3.mk.injEq])

/-- C6 witness: the amended theorem applied to the default settings and the
concrete non-positive update (−1, −2). -/
theorem updateSettings_nonpositive_applied_witness :
    (updateSettings DEFAULT_SNAP_SETTINGS
        { enabled := none, activeSnaps := none,
          threshold := some (-1), gridSpacing := some (-2) }).threshold = -1
      ∧ (updateSettings DEFAULT_SNAP_SETTINGS
          { enabled := none, activeSnaps := none,
            threshold := some (-1), gridSpacing := some (-2) }).gridSpacing = -2
      ∧ (updateSettings DEFAULT_SNAP_SETTINGS
          { enabled := none, activeSnaps := none,
            threshold := some (-1), gridSpacing := some (-2) }).enabled
        = DEFAULT_SNAP_SETTINGS.enabled
      ∧ (updateSettings DEFAULT_SNAP_SETTINGS
          { enabled := none, activeSnaps := none,
            threshold := some (-1), gridSpacing := some (-2) }).activeSnaps
        = DEFAULT_SNAP_SETTINGS.activeSnaps :=
  updateSettings_nonpositive_applied DEFAULT_SNAP_SETTINGS (-1) (-2)
    (by norm_num) (by norm_num)

end NifesStrucs
